import Mathlib

/-!
Shallow embedding of `src/index.ts`, an Abstract Factory demonstration.

The TypeScript file declares three interfaces (`ProductoAbstractoA`,
`ProductoAbstractoB`, `FabricaAbstracta`), two concrete classes per
interface, a client function `codigoCliente`, and module-scope
demonstration calls that print to standard output.

Modelling choices, all read off the source:
- An object implementing `ProductoAbstractoA` is modelled as a package of
  hidden state together with the method `funcionUtilA`, so that arbitrary
  implementers (not only the two concrete classes, which are stateless)
  are captured.  The concrete classes have no fields, so their state type
  is `Unit`.
- `ProductoAbstractoB` and `FabricaAbstracta` implementers are modelled as
  records of their methods; every method in the source is pure and
  deterministic, so a nullary method is its return value and
  `otraFuncionUtilB` is a function of the collaborator object.
- `console.log` appends one line to the output stream; the client routine
  and the module-scope demonstration are therefore modelled as the list of
  lines they print, and `codigoClienteTraza` threads an explicit output
  trace for statements about repeated invocation.
-/

/-- An implementer of the interface `ProductoAbstractoA` from
`src/index.ts`: some hidden state together with the single method
`funcionUtilA(): string`. -/
structure ProductoAbstractoA where
  Estado : Type
  estado : Estado
  impFuncionUtilA : Estado → String

/-- Calling the method `funcionUtilA` on an object. -/
def ProductoAbstractoA.funcionUtilA (a : ProductoAbstractoA) : String :=
  a.impFuncionUtilA a.estado

/-- An implementer of the interface `ProductoAbstractoB` from
`src/index.ts`: the methods `funcionUtilB(): string` and
`otraFuncionUtilB(colaborador: ProductoAbstractoA): string`. -/
structure ProductoAbstractoB where
  funcionUtilB : String
  otraFuncionUtilB : ProductoAbstractoA → String

/-- An implementer of the interface `FabricaAbstracta` from
`src/index.ts`: the methods `crearProductoA()` and `crearProductoB()`.
Both are pure constructors in the source, so each is its returned
object. -/
structure FabricaAbstracta where
  crearProductoA : ProductoAbstractoA
  crearProductoB : ProductoAbstractoB

/-- Class `ProductoConcretoA1` (src/index.ts lines 56-60): stateless,
`funcionUtilA` returns the fixed literal. -/
def ProductoConcretoA1 : ProductoAbstractoA :=
  ⟨Unit, (), fun _ => "El resultado del producto A1."⟩

/-- Class `ProductoConcretoA2` (src/index.ts lines 62-66). -/
def ProductoConcretoA2 : ProductoAbstractoA :=
  ⟨Unit, (), fun _ => "El resultado del producto A2."⟩

/-- Class `ProductoConcretoB1` (src/index.ts lines 91-106):
`funcionUtilB` returns a fixed literal and `otraFuncionUtilB` embeds the
collaborator's `funcionUtilA` result in a template string. -/
def ProductoConcretoB1 : ProductoAbstractoB :=
  ⟨"El resultado del producto B1.",
   fun colaborador =>
     "El resultado de B1 colaborando con el (" ++ colaborador.funcionUtilA ++ ")"⟩

/-- Class `ProductoConcretoB2` (src/index.ts lines 108-123). -/
def ProductoConcretoB2 : ProductoAbstractoB :=
  ⟨"El resultado del producto B2.",
   fun colaborador =>
     "El resultado de B2 colaborando con el (" ++ colaborador.funcionUtilA ++ ")"⟩

/-- Class `FabricaConcreta1` (src/index.ts lines 21-29): creates the
variant-1 products. -/
def FabricaConcreta1 : FabricaAbstracta :=
  ⟨ProductoConcretoA1, ProductoConcretoB1⟩

/-- Class `FabricaConcreta2` (src/index.ts lines 34-42): creates the
variant-2 products. -/
def FabricaConcreta2 : FabricaAbstracta :=
  ⟨ProductoConcretoA2, ProductoConcretoB2⟩

/-- Function `codigoCliente` (src/index.ts lines 130-136): creates a
product A and a product B from the given factory and prints the B
product's `funcionUtilB` result, then its `otraFuncionUtilB` result
applied to the A product.  The value is the list of printed lines. -/
def codigoCliente (fabrica : FabricaAbstracta) : List String :=
  let productoA := fabrica.crearProductoA
  let productoB := fabrica.crearProductoB
  [productoB.funcionUtilB, productoB.otraFuncionUtilB productoA]

/-- Running `codigoCliente` against an existing output trace: the lines
it prints are appended to the stream. -/
def codigoClienteTraza (fabrica : FabricaAbstracta) (salida : List String) : List String :=
  salida ++ codigoCliente fabrica

/-- The module-scope demonstration (src/index.ts lines 141-147): header
line, client run with `FabricaConcreta1`, blank line, header line, client
run with `FabricaConcreta2`.  The value is the full standard-output
stream, one entry per printed line. -/
def salidaPrograma : List String :=
  ["Cliente: Probando el código del cliente con el primer tipo de fábrica..."]
    ++ codigoCliente FabricaConcreta1
    ++ [""]
    ++ ["Cliente: Probando el mismo código del cliente con el segundo tipo de fábrica..."]
    ++ codigoCliente FabricaConcreta2

/-- A factory implementer that violates the pairing invariant: it mixes
the variant-2 product A with the variant-1 product B.  The interface
`FabricaAbstracta` admits it. -/
def FabricaMezclada : FabricaAbstracta :=
  ⟨ProductoConcretoA2, ProductoConcretoB1⟩

/-- A `ProductoAbstractoA` implementer with hidden state `Nat` whose
label coincides with the variant-1 label. -/
def ColaboradorOculto1 : ProductoAbstractoA :=
  ⟨Nat, 0, fun _ => "El resultado del producto A1."⟩

/-- A `ProductoAbstractoA` implementer with hidden state `Bool`, distinct
from `ColaboradorOculto1` but with the same label. -/
def ColaboradorOculto2 : ProductoAbstractoA :=
  ⟨Bool, true, fun _ => "El resultado del producto A1."⟩

/-- Claim C1 (counterexample): the program's output is not the English
seven-line transcript given in the specification; the source's string
literals are Spanish. -/
theorem salidaPrograma_ne_transcripcion_spec :
    salidaPrograma ≠
      ["Client: Testing client code with the first factory type...",
       "result of product B1.",
       "result of B1 collaborating with the (result of product A1.)",
       "",
       "Client: Testing the same client code with the second factory type...",
       "result of product B2.",
       "result of B2 collaborating with the (result of product A2.)"] := by
  decide

/-- Claim C1 (amended): running the client routine first with a
`FabricaConcreta1` instance and then with a `FabricaConcreta2` instance
writes exactly two blocks — header line, labelB line, collaborate line,
with a blank separator before the second block — in order, with the
Spanish text the code actually prints. -/
theorem salidaPrograma_bloques :
    salidaPrograma =
      ["Cliente: Probando el código del cliente con el primer tipo de fábrica...",
       "El resultado del producto B1.",
       "El resultado de B1 colaborando con el (El resultado del producto A1.)",
       "",
       "Cliente: Probando el mismo código del cliente con el segundo tipo de fábrica...",
       "El resultado del producto B2.",
       "El resultado de B2 colaborando con el (El resultado del producto A2.)"] := by
  rfl

/-- Claim C2 (counterexample): `ProductoConcretoA1.funcionUtilA` does not
return the English string the claim states; the literal in the source is
Spanish. -/
theorem funcionUtilA1_ne_texto_spec :
    ProductoConcretoA1.funcionUtilA ≠ "result of product A1." := by
  decide

/-- Claim C2 (amended): `ProductoConcretoA1.funcionUtilA` returns the
fixed string "El resultado del producto A1." and
`ProductoConcretoA2.funcionUtilA` returns "El resultado del producto
A2."; the two variants return distinct fixed string literals. -/
theorem funcionUtilA_variantes :
    ProductoConcretoA1.funcionUtilA = "El resultado del producto A1."
      ∧ ProductoConcretoA2.funcionUtilA = "El resultado del producto A2."
      ∧ ProductoConcretoA1.funcionUtilA ≠ ProductoConcretoA2.funcionUtilA := by
  refine ⟨rfl, rfl, ?_⟩
  decide

/-- Claim C3 (counterexample): `ProductoConcretoB1.funcionUtilB` does not
return the English string the claim states. -/
theorem funcionUtilB1_ne_texto_spec :
    ProductoConcretoB1.funcionUtilB ≠ "result of product B1." := by
  decide

/-- Claim C3 (amended): `ProductoConcretoB1.funcionUtilB` returns the
fixed string "El resultado del producto B1." and
`ProductoConcretoB2.funcionUtilB` returns "El resultado del producto
B2.". -/
theorem funcionUtilB_variantes :
    ProductoConcretoB1.funcionUtilB = "El resultado del producto B1."
      ∧ ProductoConcretoB2.funcionUtilB = "El resultado del producto B2." :=
  ⟨rfl, rfl⟩

/-- Claim C4 (counterexample): `ProductoConcretoB1.otraFuncionUtilB`
applied to a `ProductoConcretoA1` instance does not return the English
string the claim states. -/
theorem colaboracionB1A1_ne_texto_spec :
    ProductoConcretoB1.otraFuncionUtilB ProductoConcretoA1 ≠
      "result of B1 collaborating with the (result of product A1.)" := by
  decide

/-- Claim C4 (amended): `ProductoConcretoB1.otraFuncionUtilB` applied to
a `ProductoConcretoA1` instance returns exactly "El resultado de B1
colaborando con el (El resultado del producto A1.)". -/
theorem colaboracionB1A1 :
    ProductoConcretoB1.otraFuncionUtilB ProductoConcretoA1 =
      "El resultado de B1 colaborando con el (El resultado del producto A1.)" := by
  rfl

/-- Claim C5 (counterexample): the cross-variant collaboration does not
produce the English string the claim states. -/
theorem colaboracionB1A2_ne_texto_spec :
    ProductoConcretoB1.otraFuncionUtilB ProductoConcretoA2 ≠
      "result of B1 collaborating with the (result of product A2.)" := by
  decide

/-- Claim C5 (amended): for every object satisfying the
`ProductoAbstractoA` capability, regardless of variant,
`ProductoConcretoB1.otraFuncionUtilB` succeeds and returns the composed
string embedding that object's `funcionUtilA` result; in particular on a
`ProductoConcretoA2` instance it returns "El resultado de B1 colaborando
con el (El resultado del producto A2.)". -/
theorem colaboracionB1_cualquierA :
    (∀ a : ProductoAbstractoA,
        ProductoConcretoB1.otraFuncionUtilB a =
          "El resultado de B1 colaborando con el (" ++ a.funcionUtilA ++ ")")
      ∧ ProductoConcretoB1.otraFuncionUtilB ProductoConcretoA2 =
          "El resultado de B1 colaborando con el (El resultado del producto A2.)" :=
  ⟨fun _ => rfl, rfl⟩

/-- Claim C6: pairing invariant — `FabricaConcreta1` creates exactly the
variant-1 product in both families and `FabricaConcreta2` creates exactly
the variant-2 product in both families; neither factory mixes variant
numbers. -/
theorem fabricas_emparejamiento :
    FabricaConcreta1.crearProductoA = ProductoConcretoA1
      ∧ FabricaConcreta1.crearProductoB = ProductoConcretoB1
      ∧ FabricaConcreta2.crearProductoA = ProductoConcretoA2
      ∧ FabricaConcreta2.crearProductoB = ProductoConcretoB2 :=
  ⟨rfl, rfl, rfl, rfl⟩

/-- Claim C7: idempotence of the client routine — for every factory and
every prior output trace, the lines appended by a second invocation of
`codigoCliente` with the same factory equal the lines appended by the
first invocation. -/
theorem codigoCliente_idempotente (fabrica : FabricaAbstracta) (salida : List String) :
    (codigoClienteTraza fabrica (codigoClienteTraza fabrica salida)).drop
        (codigoClienteTraza fabrica salida).length
      = (codigoClienteTraza fabrica salida).drop salida.length := by
  simp [codigoClienteTraza]

/-- Claim C8: totality and determinism — every operation of the program
(`funcionUtilA`, `funcionUtilB`, `otraFuncionUtilB`, `crearProductoA`,
`crearProductoB`, and `codigoCliente`) produces exactly one result on
each input: it always succeeds and the result is uniquely determined. -/
theorem operaciones_totales_deterministas :
    (∀ a : ProductoAbstractoA, ∃! s : String, s = a.funcionUtilA)
      ∧ (∀ b : ProductoAbstractoB, ∃! s : String, s = b.funcionUtilB)
      ∧ (∀ (b : ProductoAbstractoB) (a : ProductoAbstractoA),
          ∃! s : String, s = b.otraFuncionUtilB a)
      ∧ (∀ f : FabricaAbstracta, ∃! a : ProductoAbstractoA, a = f.crearProductoA)
      ∧ (∀ f : FabricaAbstracta, ∃! b : ProductoAbstractoB, b = f.crearProductoB)
      ∧ (∀ f : FabricaAbstracta, ∃! salida : List String, salida = codigoCliente f) :=
  ⟨fun a => ⟨a.funcionUtilA, rfl, fun _ h => h⟩,
   fun b => ⟨b.funcionUtilB, rfl, fun _ h => h⟩,
   fun b a => ⟨b.otraFuncionUtilB a, rfl, fun _ h => h⟩,
   fun f => ⟨f.crearProductoA, rfl, fun _ h => h⟩,
   fun f => ⟨f.crearProductoB, rfl, fun _ h => h⟩,
   fun f => ⟨codigoCliente f, rfl, fun _ h => h⟩⟩

/-- Claim C9: each concrete B variant's `otraFuncionUtilB` depends on its
collaborator only through the collaborator's `funcionUtilA` result — two
implementers with equal labels are interchangeable, whatever their hidden
state. -/
theorem colaboracion_solo_por_etiqueta (a1 a2 : ProductoAbstractoA)
    (h : a1.funcionUtilA = a2.funcionUtilA) :
    ProductoConcretoB1.otraFuncionUtilB a1 = ProductoConcretoB1.otraFuncionUtilB a2
      ∧ ProductoConcretoB2.otraFuncionUtilB a1 = ProductoConcretoB2.otraFuncionUtilB a2 := by
  constructor <;> simp [ProductoConcretoB1, ProductoConcretoB2, h]

/-- Witness for claim C9: two concrete implementers with different hidden
state types but the same label are treated alike by both B variants. -/
theorem colaboracion_solo_por_etiqueta_testigo :
    ProductoConcretoB1.otraFuncionUtilB ColaboradorOculto1
        = ProductoConcretoB1.otraFuncionUtilB ColaboradorOculto2
      ∧ ProductoConcretoB2.otraFuncionUtilB ColaboradorOculto1
        = ProductoConcretoB2.otraFuncionUtilB ColaboradorOculto2 :=
  colaboracion_solo_por_etiqueta ColaboradorOculto1 ColaboradorOculto2 rfl

/-- Claim C10: the client routine accepts every implementer of the
`FabricaAbstracta` capability — including one that mixes variant numbers
— and prints exactly two lines: the created B product's `funcionUtilB`
result, then that B product's `otraFuncionUtilB` result applied to the
created A product; in particular the mixed factory yields the mixed
collaboration line and the A label is never printed on its own. -/
theorem codigoCliente_cualquier_fabrica :
    (∀ f : FabricaAbstracta,
        codigoCliente f =
          [f.crearProductoB.funcionUtilB,
           f.crearProductoB.otraFuncionUtilB f.crearProductoA])
      ∧ codigoCliente FabricaMezclada =
          ["El resultado del producto B1.",
           "El resultado de B1 colaborando con el (El resultado del producto A2.)"] :=
  ⟨fun _ => rfl, rfl⟩
